import Mathlib

/-!
Shallow embedding of `src/scripts/agno_bridge.py` (the AgentNexus
python bridge script) and proofs about its request/response contract.

Python values decoded from JSON are modelled by the inductive `Json`
(numbers as rationals: the code never computes with numbers, it only
passes them through or renders them).  Python exceptions are modelled
by `PyExn`; a Python function that can raise returns `Except PyExn α`.
The opaque external `agno` library is modelled by a structure of
function parameters (`AgnoLib`); the module-level `AGNO_AVAILABLE`
flag and the library together form the fixed context `Ctx`, while the
module-level mutable `agent` handle is threaded explicitly as an
`Option Agent`.
-/

/-- A decoded JSON value (= the Python values `json.loads` can return).
Objects are association lists; `json.loads` never produces duplicate
keys in a dict, and lookup takes the first binding. -/
inductive Json where
  | null : Json
  | bool : Bool → Json
  | num : ℚ → Json
  | str : String → Json
  | arr : List Json → Json
  | obj : List (String × Json) → Json

/-- First binding of `key` in an association list (Python dict lookup). -/
def lookupField : List (String × Json) → String → Option Json
  | [], _ => none
  | (k, v) :: fs, key => if k = key then some v else lookupField fs key

/-- Python's type name of a value, used in exception messages. -/
def pyTypeName : Json → String
  | .null => "NoneType"
  | .bool _ => "bool"
  | .num _ => "float"
  | .str _ => "str"
  | .arr _ => "list"
  | .obj _ => "dict"

/-- The Python exceptions the bridge can raise or observe. `libError`
stands for any exception raised inside the opaque agno library,
carrying its `str(e)` rendering. -/
inductive PyExn where
  | keyError : String → PyExn
  | typeError : String → PyExn
  | attributeError : String → PyExn
  | libError : String → PyExn

/-- `str(e)` for a Python exception (`KeyError` renders as the repr of
the missing key, i.e. quoted). -/
def exnStr : PyExn → String
  | .keyError k => "'" ++ k ++ "'"
  | .typeError m => m
  | .attributeError m => m
  | .libError m => m

/-- Model of `traceback.format_exc()`: some deterministic string naming
the exception (its exact text is irrelevant to every claim). -/
def tracebackOf (e : PyExn) : String :=
  "Traceback (most recent call last): " ++ exnStr e

mutual
/-- Python `repr` of a decoded-JSON value (list/dict rendering used by
f-strings and `str()` on containers).  Number rendering approximates
CPython float formatting; no claim depends on it. -/
def pyRepr : Json → String
  | .null => "None"
  | .bool b => if b then "True" else "False"
  | .num q => if q.den = 1 then toString q.num else toString q.num ++ "/" ++ toString q.den
  | .str s => "'" ++ s ++ "'"
  | .arr xs => "[" ++ pyReprList xs ++ "]"
  | .obj fs => "\x7b" ++ pyReprFields fs ++ "\x7d"

def pyReprList : List Json → String
  | [] => ""
  | [x] => pyRepr x
  | x :: y :: xs => pyRepr x ++ ", " ++ pyReprList (y :: xs)

def pyReprFields : List (String × Json) → String
  | [] => ""
  | [(k, v)] => "'" ++ k ++ "': " ++ pyRepr v
  | (k, v) :: f :: fs => "'" ++ k ++ "': " ++ pyRepr v ++ ", " ++ pyReprFields (f :: fs)
end

/-- Python `str()` of a value, as used by f-string interpolation
(`f"Unknown action: {action}"` etc.). -/
def pyStr : Json → String
  | .null => "None"
  | .bool b => if b then "True" else "False"
  | .num q => if q.den = 1 then toString q.num else toString q.num ++ "/" ++ toString q.den
  | .str s => s
  | .arr xs => pyRepr (.arr xs)
  | .obj fs => pyRepr (.obj fs)

/-- JSON string escaping for `json.dumps` (covers the escapes that can
appear here; no claim depends on the exact escaping). -/
def dumpsEscape (s : String) : String :=
  s.data.foldr (fun c acc =>
    if c = '\\' then "\\\\" ++ acc
    else if c = '"' then "\\\"" ++ acc
    else if c = '\n' then "\\n" ++ acc
    else if c = '\t' then "\\t" ++ acc
    else String.singleton c ++ acc) ""

mutual
/-- `json.dumps` with default separators. -/
def dumps : Json → String
  | .null => "null"
  | .bool b => if b then "true" else "false"
  | .num q => if q.den = 1 then toString q.num else toString q.num ++ "/" ++ toString q.den
  | .str s => "\"" ++ dumpsEscape s ++ "\""
  | .arr xs => "[" ++ dumpsList xs ++ "]"
  | .obj fs => "\x7b" ++ dumpsFields fs ++ "\x7d"

def dumpsList : List Json → String
  | [] => ""
  | [x] => dumps x
  | x :: y :: xs => dumps x ++ ", " ++ dumpsList (y :: xs)

def dumpsFields : List (String × Json) → String
  | [] => ""
  | [(k, v)] => "\"" ++ dumpsEscape k ++ "\": " ++ dumps v
  | (k, v) :: f :: fs => "\"" ++ dumpsEscape k ++ "\": " ++ dumps v ++ ", " ++ dumpsFields (f :: fs)
end

mutual
/-- Python `==` on decoded-JSON values (structural; the `True == 1`
coercion quirk is not modelled — no compared value mixes bool and
number anywhere in the bridge). -/
def jeq : Json → Json → Bool
  | .null, .null => true
  | .bool a, .bool b => a = b
  | .num a, .num b => a = b
  | .str a, .str b => a = b
  | .arr a, .arr b => jeqList a b
  | .obj a, .obj b => jeqFields a b
  | _, _ => false

def jeqList : List Json → List Json → Bool
  | [], [] => true
  | a :: as, b :: bs => jeq a b && jeqList as bs
  | _, _ => false

def jeqFields : List (String × Json) → List (String × Json) → Bool
  | [], [] => true
  | (k, v) :: as, (l, w) :: bs => k = l && jeq v w && jeqFields as bs
  | _, _ => false
end

/-- Whether a value is the given Python string (Python `x == "lit"`,
which is `False` whenever `x` is not a string). -/
def isStr (j : Json) (lit : String) : Bool :=
  match j with
  | .str s => s = lit
  | _ => false

/-- Python `x.get(key, default)`: dict lookup with default; raises
`AttributeError` on every non-dict value. -/
def pyGet (j : Json) (key : String) (dflt : Json) : Except PyExn Json :=
  match j with
  | .obj fs => .ok ((lookupField fs key).getD dflt)
  | _ => .error (.attributeError
      ("'" ++ pyTypeName j ++ "' object has no attribute 'get'"))

/-- Python `x[key]` for a string key: dict lookup raising `KeyError`
when absent; `TypeError` on every other value. -/
def pySubscr (j : Json) (key : String) : Except PyExn Json :=
  match j with
  | .obj fs =>
      match lookupField fs key with
      | some v => .ok v
      | none => .error (.keyError key)
  | .str _ => .error (.typeError "string indices must be integers")
  | .arr _ => .error (.typeError "list indices must be integers or slices, not str")
  | j => .error (.typeError ("'" ++ pyTypeName j ++ "' object is not subscriptable"))

/-- Python iteration `for m in x`: lists yield their elements, strings
their characters, dicts their keys; other values raise `TypeError`. -/
def pyIter (j : Json) : Except PyExn (List Json) :=
  match j with
  | .arr xs => .ok xs
  | .str s => .ok (s.data.map (fun c => .str (String.singleton c)))
  | .obj fs => .ok (fs.map (fun p => .str p.1))
  | j => .error (.typeError ("'" ++ pyTypeName j ++ "' object is not iterable"))

/-- The object the agno library's `Agent` constructor returns: the
attributes the bridge reads (`.name`, `.description`, `.model`,
`.tools`).  `tools` is the registered tool set, tested by Python
`in`. -/
structure Agent where
  name : Json
  description : Json
  model : Json
  tools : List Json

/-- The agno message variants the bridge constructs
(`agno.SystemMessage` etc.); `function` also carries the `name`
argument. -/
inductive AgnoMsg where
  | system : Json → AgnoMsg
  | user : Json → AgnoMsg
  | assistant : Json → AgnoMsg
  | function : (content : Json) → (name : Json) → AgnoMsg

/-- The opaque agno library surface the bridge calls.  Each entry
point may raise (modelled as `Except String`, the `str(e)` of the
library exception): `construct` is `agno.Agent(name=…, description=…,
model=…)`, `generate` is `agent.generate(messages=…, temperature=…,
max_tokens=…, stop=…)` returning `response.content`, `executeTool` is
`agent.execute_tool(tool_name, **params)`. -/
structure AgnoLib where
  construct : Json → Json → Json → Except String Agent
  generate : Agent → List AgnoMsg → Json → Json → Json → Except String Json
  executeTool : Agent → Json → List (String × Json) → Except String Json

/-- The fixed per-process context: the `AGNO_AVAILABLE` flag and the
library (consulted only when the flag is true). -/
structure Ctx where
  agnoAvailable : Bool
  lib : AgnoLib

/-- One turn of the message-conversion loop body (lines 130–144):
reads `msg['role']` and `msg['content']` unconditionally, then builds
the agno message for the five known roles; an unknown role appends
nothing. -/
def convertOne (m : Json) : Except PyExn (Option AgnoMsg) := do
  let role ← pySubscr m "role"
  let content ← pySubscr m "content"
  if isStr role "system" then
    .ok (some (.system content))
  else if isStr role "user" then
    .ok (some (.user content))
  else if isStr role "assistant" then
    .ok (some (.assistant content))
  else if isStr role "function" || isStr role "tool" then do
    let name ← pyGet m "name" (.str "function")
    .ok (some (.function content name))
  else
    .ok none

/-- The whole conversion loop: `agno_messages` after the `for msg in
messages` loop. -/
def convertMessages : List Json → Except PyExn (List AgnoMsg)
  | [] => .ok []
  | m :: rest => do
      let o ← convertOne m
      let tail ← convertMessages rest
      match o with
      | some am => .ok (am :: tail)
      | none => .ok tail

/-- The generator scan `next((m['content'] for m in messages if
m['role'] == 'user'), '')` over an already-obtained element list:
yields the `content` of the first element whose `role` equals
`"user"`, or `''`. -/
def firstUserContent : List Json → Except PyExn Json
  | [] => .ok (.str "")
  | m :: rest => do
      let r ← pySubscr m "role"
      if isStr r "user" then pySubscr m "content"
      else firstUserContent rest

/-- Python `x[:50]` followed by f-string rendering: strings are
truncated to their first 50 characters, lists are sliced then rendered
with `str()`, anything else raises `TypeError`. -/
def slice50Render : Json → Except PyExn String
  | .str s => .ok (s.take 50)
  | .arr xs => .ok (pyRepr (.arr (xs.take 50)))
  | j => .error (.typeError ("'" ++ pyTypeName j ++ "' object is not subscriptable"))

/-- The demo completion string of lines 122–125, with the truncated
first-user-message content spliced in. -/
def demoCompletionText (t : String) : String :=
  "Demo response to: '" ++ t ++ "...'\n\nThis is a demo response because the agno library is not available. Please install the agno library for full functionality."

/-- A `success: true` response carrying `data`. -/
def okResp (d : Json) : Json :=
  .obj [("success", .bool true), ("data", d)]

/-- A `success: false` response carrying `error`. -/
def errResp (e : String) : Json :=
  .obj [("success", .bool false), ("error", .str e)]

/-- `generate_completion(messages, options)` (lines 106–157).  The
demo branch (library unavailable or no agent) is outside the `try`
block, so its exceptions propagate to the caller; the library branch
wraps everything in `try`/`except` and is total. -/
def generate_completion (ctx : Ctx) (agent0 : Option Agent)
    (messages options : Json) : Except PyExn Json :=
  match ctx.agnoAvailable, agent0 with
  | true, some ag =>
      .ok (match (do
        let msgs ← pyIter messages
        let amsgs ← convertMessages msgs
        let temp ← pyGet options "temperature" (.num (7 / 10 : ℚ))
        let maxTok ← pyGet options "maxTokens" (.num 1000)
        let stop ← pyGet options "stop" .null
        match ctx.lib.generate ag amsgs temp maxTok stop with
        | .ok content => .ok content
        | .error m => .error (PyExn.libError m) : Except PyExn Json) with
      | .ok content => okResp content
      | .error e => errResp ("Failed to generate completion: " ++ exnStr e))
  | _, _ => do
      let msgs ← pyIter messages
      let userMessage ← firstUserContent msgs
      let t ← slice50Render userMessage
      .ok (okResp (.str (demoCompletionText t)))

/-- `initialize_agent(config)` (lines 62–104), returning the new agent
handle alongside the response.  In the unavailable branch the
`config.get` calls are not inside any `try`, so they may raise; the
available branch is entirely inside `try`/`except` and is total, and
assigns the handle only after the constructor returns. -/
def initialize_agent (ctx : Ctx) (agent0 : Option Agent)
    (config : Json) : Except PyExn (Option Agent × Json) :=
  if ctx.agnoAvailable = false then do
    let name ← pyGet config "agentName" (.str "Agent Nexus")
    let descr ← pyGet config "description" (.str "Demo Agent (agno not available)")
    let model ← pyGet config "modelName" (.str "demo-model")
    .ok (agent0, okResp (.obj
      [("name", name), ("description", descr), ("model", model), ("demo", .bool true)]))
  else
    .ok (match (do
      let name ← pyGet config "agentName" (.str "Agent Nexus")
      let descr ← pyGet config "description" (.str "An advanced cognitive agent architecture")
      let model ← pyGet config "modelName" (.str "gpt-4")
      match ctx.lib.construct name descr model with
      | .ok ag => .ok ag
      | .error m => .error (PyExn.libError m) : Except PyExn Agent) with
    | .ok ag => (some ag, okResp (.obj
        [("name", ag.name), ("description", ag.description),
         ("model", ag.model), ("demo", .bool false)]))
    | .error e => (agent0, errResp ("Failed to initialize agent: " ++ exnStr e)))

/-- `execute_tool(tool_name, params)` (lines 159–189); total, since
the demo branch only serializes and the library branch is entirely
inside `try`/`except`.  `**params` requires a dict; a non-dict raises
`TypeError` inside the `try`. -/
def execute_tool (ctx : Ctx) (agent0 : Option Agent)
    (toolName params : Json) : Json :=
  match ctx.agnoAvailable, agent0 with
  | true, some ag =>
      match (do
        if (ag.tools.any (jeq toolName)) = false then
          .error none
        else
          match params with
          | .obj fs =>
              match ctx.lib.executeTool ag toolName fs with
              | .ok r => .ok r
              | .error m => .error (some (PyExn.libError m))
          | j => .error (some (PyExn.typeError
              ("argument of type '" ++ pyTypeName j ++ "' is not a mapping")))
        : Except (Option PyExn) Json) with
      | .ok r => okResp r
      | .error none => errResp ("Tool not found: " ++ pyStr toolName)
      | .error (some e) =>
          errResp ("Failed to execute tool " ++ pyStr toolName ++ ": " ++ exnStr e)
  | _, _ =>
      okResp (.str ("Demo tool execution for: " ++ pyStr toolName
        ++ "\nParameters: " ++ dumps params
        ++ "\n\nThis is a demo response because the agno library is not available."))

/-- The dispatch body (lines 38–52): the `try` block of
`handle_request`, acting on the already-extracted `action` and `data`.
Returns the (possibly updated) agent handle with the response; an
`.error` is an exception escaping to `handle_request`'s own
`except` clause. -/
def dispatch (ctx : Ctx) (agent0 : Option Agent)
    (action data : Json) : Except PyExn (Option Agent × Json) :=
  if isStr action "ping" then
    .ok (agent0, okResp (.bool true))
  else if isStr action "initialize_agent" then
    initialize_agent ctx agent0 data
  else if isStr action "generate_completion" then do
    let messages ← pyGet data "messages" (.arr [])
    let options ← pyGet data "options" (.obj [])
    let resp ← generate_completion ctx agent0 messages options
    .ok (agent0, resp)
  else if isStr action "execute_tool" then do
    let toolName ← pyGet data "toolName" .null
    let params ← pyGet data "params" (.obj [])
    .ok (agent0, execute_tool ctx agent0 toolName params)
  else
    .ok (agent0, errResp ("Unknown action: " ++ pyStr action))

/-- `handle_request(request)` (lines 25–60).  The two `request.get`
calls on lines 35–36 stand before the `try` block, so they raise out
of the function when `request` is not a dict; once inside the `try`,
every exception is caught and converted to a `success: false`
response with `error` and `traceback` fields. -/
def handle_request (ctx : Ctx) (agent0 : Option Agent)
    (request : Json) : Except PyExn (Option Agent × Json) := do
  let action ← pyGet request "action" .null
  let data ← pyGet request "data" (.obj [])
  match dispatch ctx agent0 action data with
  | .ok res => .ok res
  | .error e => .ok (agent0, .obj
      [("success", .bool false),
       ("error", .str ("Error processing " ++ pyStr action ++ ": " ++ exnStr e)),
       ("traceback", .str (tracebackOf e))])

/-- The response `main()` (lines 191–216) serializes to stdout, as a
function of the JSON-decode outcome of stdin (`parsed`: `.error` is a
`json.JSONDecodeError` with its `str(e)`). -/
def mainResponse (ctx : Ctx) (agent0 : Option Agent)
    (parsed : Except String Json) : Json :=
  match parsed with
  | .error msg => errResp ("Invalid JSON: " ++ msg)
  | .ok request =>
      match handle_request ctx agent0 request with
      | .ok (_, resp) => resp
      | .error e => errResp ("Unexpected error: " ++ exnStr e)

/-- A concrete library instance for witnesses: its constructor always
raises with message `"boom"`, generation returns `"ok"`, tool
execution returns `null`. -/
def libFail : AgnoLib where
  construct := fun _ _ _ => .error "boom"
  generate := fun _ _ _ _ _ => .ok (.str "ok")
  executeTool := fun _ _ _ => .ok .null

/-- Context with the library unavailable (the `ImportError` branch). -/
def ctxDemo : Ctx := ⟨false, libFail⟩

/-- Context with the library available, backed by `libFail`. -/
def ctxAvail : Ctx := ⟨true, libFail⟩

/-- A concrete constructed agent with no registered tools. -/
def agent0w : Agent := ⟨.str "Agent Nexus", .str "d", .str "gpt-4", []⟩

/-- The `role` field of a message object (claim C2's reading of a
message; `null` stands for a missing field). -/
def roleOf (m : Json) : Json :=
  match m with
  | .obj fs => (lookupField fs "role").getD .null
  | _ => .null

/-- The `content` field of a message object, as a string (claim C2
only quantifies over messages whose `content` is a string). -/
def contentOf (m : Json) : String :=
  match m with
  | .obj fs =>
      match lookupField fs "content" with
      | some (.str c) => c
      | _ => ""
  | _ => ""

/-- Modelled from the spec claim for `generate_completion`'s demo path:
the content of the first message whose `role` field equals the string
`"user"`, the empty string when there is none. -/
def specFirstUser : List Json → String
  | [] => ""
  | m :: rest =>
      if isStr (roleOf m) "user" then contentOf m else specFirstUser rest

/-- A message is an object carrying string `role` and `content`
fields (the shape claim C2 quantifies over). -/
def MsgOk (m : Json) : Prop :=
  (∃ r, pySubscr m "role" = .ok (.str r)) ∧
  (∃ c, pySubscr m "content" = .ok (.str c))

/-- The four action strings `handle_request` routes to a handler. -/
def knownAction (a : Json) : Bool :=
  isStr a "ping" || isStr a "initialize_agent" ||
  isStr a "generate_completion" || isStr a "execute_tool"

/-- The five role strings the conversion loop recognizes. -/
def knownRole (r : Json) : Bool :=
  isStr r "system" || isStr r "user" || isStr r "assistant" ||
  isStr r "function" || isStr r "tool"

lemma handle_request_obj (ctx : Ctx) (agent0 : Option Agent)
    (fs : List (String × Json)) :
    handle_request ctx agent0 (Json.obj fs) =
      match dispatch ctx agent0 ((lookupField fs "action").getD .null)
          ((lookupField fs "data").getD (.obj [])) with
      | .ok res => .ok res
      | .error e => .ok (agent0, .obj
          [("success", .bool false),
           ("error", .str ("Error processing "
              ++ pyStr ((lookupField fs "action").getD .null) ++ ": " ++ exnStr e)),
           ("traceback", .str (tracebackOf e))]) := rfl

/-- C1 (amended): for every decoded request that is a JSON object,
`handle_request` returns a response and never raises — every failure
inside the `try` block is caught and converted to a `success: false`
response.  (The original claim extends this to every decodable JSON
value; `handle_request_raises_on_nonobject` refutes that part.) -/
theorem handle_request_total_on_objects (ctx : Ctx) (agent0 : Option Agent)
    (fs : List (String × Json)) :
    ∃ ag resp, handle_request ctx agent0 (Json.obj fs) = .ok (ag, resp) := by
  rw [handle_request_obj]
  cases h : dispatch ctx agent0 ((lookupField fs "action").getD .null)
      ((lookupField fs "data").getD (.obj [])) with
  | ok res => exact ⟨res.1, res.2, rfl⟩
  | error e => exact ⟨agent0, _, rfl⟩

/-- C1 (counterexample): the claim fails for non-object decoded values.
The top level can decode the input `null` to Python `None`, and
`handle_request(None)` raises `AttributeError` on line 35
(`request.get('action')` runs before the `try` block), so the call
does not return a response — only `main`'s outer catch-all turns it
into an `Unexpected error` response. -/
theorem handle_request_raises_on_nonobject :
    handle_request ctxDemo none Json.null =
      .error (.attributeError "'NoneType' object has no attribute 'get'") := rfl

/-- C3: with the library unavailable, `initialize_agent` on the empty
configuration returns the demo descriptor whose `model` is the literal
`"demo-model"` (not `"gpt-4"`), and the agent handle it returns is the
one it was given — the handle is not mutated. -/
theorem initialize_agent_demo_empty_config (lib : AgnoLib) (agent0 : Option Agent) :
    initialize_agent ⟨false, lib⟩ agent0 (Json.obj []) =
      .ok (agent0, okResp (.obj
        [("name", .str "Agent Nexus"),
         ("description", .str "Demo Agent (agno not available)"),
         ("model", .str "demo-model"),
         ("demo", .bool true)])) := rfl

/-- C5: a request whose `action` value is none of the four known
actions yields exactly the two-field response
`{success: false, error: "Unknown action: <action>"}`, with the agent
handle unchanged; the result holds for every context and handle, so no
action handler and no library entry point is consulted. -/
theorem unknown_action_response (ctx : Ctx) (agent0 : Option Agent)
    (fs : List (String × Json))
    (h : knownAction ((lookupField fs "action").getD .null) = false) :
    handle_request ctx agent0 (Json.obj fs) =
      .ok (agent0, errResp ("Unknown action: "
        ++ pyStr ((lookupField fs "action").getD .null))) := by
  rw [handle_request_obj]
  simp only [knownAction, Bool.or_eq_false_iff] at h
  obtain ⟨⟨⟨h1, h2⟩, h3⟩, h4⟩ := h
  simp [dispatch, h1, h2, h3, h4]

theorem unknown_action_response_witness :
    handle_request ctxDemo none (Json.obj [("action", Json.str "frobnicate")]) =
      .ok (none, errResp "Unknown action: frobnicate") :=
  unknown_action_response ctxDemo none [("action", Json.str "frobnicate")] (by decide)

/-- C10: a request object with no `action` field dispatches with
`action = None` (the `request.get` default) and is reported as the
unknown action `"None"` — the literal text `None` appears in the
error, rather than a dedicated missing-action error. -/
theorem missing_action_unknown_none (ctx : Ctx) (agent0 : Option Agent)
    (fs : List (String × Json)) (h : lookupField fs "action" = none) :
    handle_request ctx agent0 (Json.obj fs) =
      .ok (agent0, errResp "Unknown action: None") := by
  rw [handle_request_obj]
  simp [dispatch, h, isStr, pyStr]

theorem missing_action_unknown_none_witness :
    handle_request ctxDemo none (Json.obj []) =
      .ok (none, errResp "Unknown action: None") :=
  missing_action_unknown_none ctxDemo none [] rfl

/-- C8: every request whose `action` field is `"ping"` returns exactly
`{success: true, data: true}`, for every context, agent handle and
`data` field, and leaves the handle unchanged — so repeated pings are
deterministic and identical. -/
theorem ping_response (ctx : Ctx) (agent0 : Option Agent)
    (fs : List (String × Json))
    (h : lookupField fs "action" = some (.str "ping")) :
    handle_request ctx agent0 (Json.obj fs) =
      .ok (agent0, okResp (.bool true)) := by
  rw [handle_request_obj]
  simp [dispatch, h, isStr]

theorem ping_response_witness :
    handle_request ctxDemo none
        (Json.obj [("action", Json.str "ping"), ("data", Json.null)]) =
      .ok (none, okResp (.bool true)) :=
  ping_response ctxDemo none [("action", Json.str "ping"), ("data", Json.null)] rfl

/-- C7: when JSON decoding of standard input fails, the program's
single output object is exactly `{success: false, error: "Invalid
JSON: <parser message>"}` — the error begins with the `Invalid JSON: `
prefix — for every context and agent handle, so no action is
dispatched. -/
theorem invalid_json_response (ctx : Ctx) (agent0 : Option Agent) (msg : String) :
    mainResponse ctx agent0 (.error msg) = errResp ("Invalid JSON: " ++ msg) := rfl

/-- C4: with the library available, when the agent constructor raises,
`initialize_agent` returns `{success: false, error: "Failed to
initialize agent: <message>"}` and the returned handle is exactly the
one passed in — the assignment on line 87 is reached only when
construction succeeds, so initialization is atomic. -/
theorem initialize_agent_ctor_failure (lib : AgnoLib) (agent0 : Option Agent)
    (fs : List (String × Json)) (msg : String)
    (h : lib.construct
        ((lookupField fs "agentName").getD (.str "Agent Nexus"))
        ((lookupField fs "description").getD (.str "An advanced cognitive agent architecture"))
        ((lookupField fs "modelName").getD (.str "gpt-4")) = .error msg) :
    initialize_agent ⟨true, lib⟩ agent0 (Json.obj fs) =
      .ok (agent0, errResp ("Failed to initialize agent: " ++ msg)) := by
  simp [initialize_agent, pyGet, bind, Except.bind, h, exnStr]

theorem initialize_agent_ctor_failure_witness :
    initialize_agent ⟨true, libFail⟩ none (Json.obj []) =
      .ok (none, errResp "Failed to initialize agent: boom") :=
  initialize_agent_ctor_failure libFail none [] "boom" rfl

/-- C6: with the library available and an agent initialized,
`execute_tool` for a `toolName` outside the agent's registered tool
set returns `{success: false, error: "Tool not found: <toolName>"}`;
the result holds for every library, so the tool-execution entry point
is not invoked. -/
theorem execute_tool_not_found (lib : AgnoLib) (ag : Agent)
    (toolName params : Json)
    (h : ag.tools.any (jeq toolName) = false) :
    execute_tool ⟨true, lib⟩ (some ag) toolName params =
      errResp ("Tool not found: " ++ pyStr toolName) := by
  simp [execute_tool, h]

theorem execute_tool_not_found_witness :
    execute_tool ⟨true, libFail⟩ (some agent0w) (Json.str "search")
        (Json.obj [("q", Json.str "x")]) =
      errResp "Tool not found: search" :=
  execute_tool_not_found libFail agent0w (Json.str "search")
    (Json.obj [("q", Json.str "x")]) rfl

lemma firstUserContent_spec (msgs : List Json) (hm : ∀ m ∈ msgs, MsgOk m) :
    firstUserContent msgs = .ok (.str (specFirstUser msgs)) := by
  induction msgs with
  | nil => rfl
  | cons m rest ih =>
      obtain ⟨⟨r, hr⟩, c, hc⟩ := hm m (List.mem_cons_self m rest)
      have ih2 := ih (fun x hx => hm x (List.mem_cons_of_mem m hx))
      cases m with
      | obj fs =>
          simp only [pySubscr] at hr hc
          cases h1 : lookupField fs "role" with
          | none => rw [h1] at hr; exact absurd hr (by simp)
          | some rv =>
              rw [h1] at hr
              cases h2 : lookupField fs "content" with
              | none => rw [h2] at hc; exact absurd hc (by simp)
              | some cv =>
                  rw [h2] at hc
                  simp only [Except.ok.injEq] at hr hc
                  subst hr; subst hc
                  by_cases hu : r = "user"
                  · subst hu
                    simp [firstUserContent, pySubscr, specFirstUser, roleOf,
                      contentOf, h1, h2, isStr, bind, Except.bind]
                  · simp [firstUserContent, pySubscr, specFirstUser, roleOf,
                      contentOf, h1, h2, isStr, hu, bind, Except.bind, ih2]
      | null => exact absurd hr (by simp [pySubscr])
      | bool b => exact absurd hr (by simp [pySubscr])
      | num q => exact absurd hr (by simp [pySubscr])
      | str s => exact absurd hr (by simp [pySubscr])
      | arr xs => exact absurd hr (by simp [pySubscr])

/-- C2: in demo mode (library unavailable or no agent initialized),
`generate_completion` on any list of messages that are objects with
string `role` and `content` fields succeeds with the fixed demo
template around the first user message's content truncated to 50
characters (empty when there is no user message); the result is a
pure function of the input, identical for every context and agent
handle satisfying the demo condition. -/
theorem generate_completion_demo_pure (ctx : Ctx) (agent0 : Option Agent)
    (msgs : List Json) (options : Json)
    (hd : ctx.agnoAvailable = false ∨ agent0 = none)
    (hm : ∀ m ∈ msgs, MsgOk m) :
    generate_completion ctx agent0 (Json.arr msgs) options =
      .ok (okResp (.str (demoCompletionText ((specFirstUser msgs).take 50)))) := by
  have hfu := firstUserContent_spec msgs hm
  obtain ⟨av, lib⟩ := ctx
  have hdemo : generate_completion ⟨av, lib⟩ agent0 (Json.arr msgs) options = (do
      let ms ← pyIter (Json.arr msgs)
      let u ← firstUserContent ms
      let t ← slice50Render u
      .ok (okResp (.str (demoCompletionText t)))) := by
    rcases hd with h | h
    · have h2 : av = false := h
      subst h2
      cases agent0 <;> rfl
    · subst h
      cases av <;> rfl
  rw [hdemo]
  simp [pyIter, bind, Except.bind, hfu, slice50Render]

set_option maxRecDepth 8192 in
theorem generate_completion_demo_pure_witness :
    generate_completion ctxDemo none
        (Json.arr [Json.obj [("role", Json.str "user"), ("content", Json.str "hello")]])
        (Json.obj []) =
      .ok (okResp (.str "Demo response to: 'hello...'\n\nThis is a demo response because the agno library is not available. Please install the agno library for full functionality.")) :=
  generate_completion_demo_pure ctxDemo none
    [Json.obj [("role", Json.str "user"), ("content", Json.str "hello")]]
    (Json.obj []) (Or.inl rfl)
    (by
      intro m hmem
      simp only [List.mem_singleton] at hmem
      subst hmem
      exact ⟨⟨"user", rfl⟩, ⟨"hello", rfl⟩⟩)

lemma convertOne_unknown_role (fs : List (String × Json)) (r c : Json)
    (h1 : lookupField fs "role" = some r)
    (h2 : lookupField fs "content" = some c)
    (h3 : knownRole r = false) :
    convertOne (Json.obj fs) = .ok none := by
  simp only [knownRole, Bool.or_eq_false_iff] at h3
  obtain ⟨⟨⟨⟨k1, k2⟩, k3⟩, k4⟩, k5⟩ := h3
  simp [convertOne, pySubscr, h1, h2, k1, k2, k3, k4, k5, bind, Except.bind]

/-- C9 (amended): in the library-backed conversion loop, a message
that is an object carrying `role` and `content` entries whose role is
none of the five known roles contributes no translated message and no
error — deleting it from the input leaves the translated sequence
unchanged.  (As originally stated the claim also covers objects with
an unrecognized role and no `content` entry, which instead raise
`KeyError`; `convert_error_on_missing_content` refutes that.) -/
theorem convert_skips_unknown_role (xs ys : List Json)
    (fs : List (String × Json)) (r c : Json)
    (h1 : lookupField fs "role" = some r)
    (h2 : lookupField fs "content" = some c)
    (h3 : knownRole r = false) :
    convertMessages (xs ++ Json.obj fs :: ys) = convertMessages (xs ++ ys) := by
  induction xs with
  | nil =>
      simp only [List.nil_append]
      have h0 := convertOne_unknown_role fs r c h1 h2 h3
      rw [convertMessages, h0]
      cases hys : convertMessages ys <;> simp [hys, bind, Except.bind]
  | cons x xs ih =>
      simp only [List.cons_append]
      rw [convertMessages, convertMessages, ih]

theorem convert_skips_unknown_role_witness :
    convertMessages [Json.obj [("role", Json.str "weird"), ("content", Json.str "x")]] =
      convertMessages [] :=
  convert_skips_unknown_role [] []
    [("role", Json.str "weird"), ("content", Json.str "x")]
    (Json.str "weird") (Json.str "x") rfl rfl (by decide)

/-- C9 (counterexample): a message whose role is unrecognized is not
always silently omitted — when it lacks a `content` entry, line 132
(`content = msg['content']`) raises `KeyError` before the role is
examined, and `generate_completion` answers with a failure response
instead of translating the remaining messages. -/
theorem convert_error_on_missing_content :
    generate_completion ctxAvail (some agent0w)
        (Json.arr [Json.obj [("role", Json.str "weird")]]) (Json.obj []) =
      .ok (errResp "Failed to generate completion: 'content'") := rfl
